import Mathlib

/-!
Verification of the green-mind-ai routing engine.

This file gives a shallow embedding, in Lean 4, of the decision logic of the
repository's two Python source files:

* `src/python_backend/app.py` — the Flask backend: `remove_duplicate_lines`,
  `query_simple`, the capability gates `can_simple` / `can_ollama` /
  `can_huggingface` / `can_claude`, `is_unhelpful_response`,
  `get_carbon_footprint`, the complexity-scoring part of
  `suggest_optimal_model`, `query_prompt` and the `api_query` endpoint guard.
* `src/HACKMIT.py` — the earlier Streamlit variant: `can_tinyllama` and its
  `get_carbon_footprint` (whose coefficient table is indexed directly, so a
  missing key raises `KeyError`; modelled here with `Option`).

Python strings are modelled as Lean `String` (logically a `List Char`);
the handful of string primitives the code uses (`str.strip`, `str.lower`,
`str.split('\n')`, `str.split()`, substring `in`, `'\n'.join`, and the two
regular expressions `^\d+[\.\)]\s*` and `[^\w\s]`, plus `\b`-anchored keyword
alternations) are implemented below as executable functions on `List Char`.
Python floats are modelled as `ℚ` (the coefficients are exact decimals) and
`round(x, 6)` as rounding at 10⁻⁶.  Network-backed providers
(`query_claude`, `query_huggingface`, `query_ollama`) are external
collaborators: they are passed to the orchestrator as an oracle record
`ProviderOracles`, while the pure canned-answer provider `query_simple` is
embedded in full, verbatim from the source.
-/

set_option maxRecDepth 40000

/-! ## Character-level primitives -/

/-- Python whitespace test used by `str.strip` / `str.split`. -/
def wsChar (c : Char) : Bool := c.isWhitespace

/-- The `\w` class of Python's `re` module (ASCII fragment). -/
def isWordChar (c : Char) : Bool := c.isAlphanum || c == '_'

/-- `str.lower` (ASCII fragment), character list form. -/
def lowerC (cs : List Char) : List Char := cs.map Char.toLower

/-- Left part of `str.strip`. -/
def ltrimC (cs : List Char) : List Char := cs.dropWhile wsChar

/-- Right part of `str.strip`. -/
def rtrimC (cs : List Char) : List Char := (cs.reverse.dropWhile wsChar).reverse

/-- `str.strip`: drop whitespace from both ends. -/
def trimC (cs : List Char) : List Char := rtrimC (ltrimC cs)

/-- `len(s.split())`: the number of maximal whitespace-free runs.  The flag
records whether the previous character was inside a word. -/
def countWords : Bool → List Char → Nat
  | _, [] => 0
  | inw, c :: cs =>
    if wsChar c then countWords false cs
    else (if inw then 0 else 1) + countWords true cs

/-- Does `pat` occur at the front of `hay`?  (Both plain character lists.) -/
def startsW : List Char → List Char → Bool
  | [], _ => true
  | _ :: _, [] => false
  | p :: ps, h :: hs => p == h && startsW ps hs

/-- Python's substring test `pat in hay`. -/
def containsSub : List Char → List Char → Bool
  | hay, pat =>
    if startsW pat hay then true
    else
      match hay with
      | [] => false
      | _ :: t => containsSub t pat

/-- Matches `kw` at the front of `h` and demands a `\b` boundary after it
(next character absent or not a word character).  All keywords used in the
sources begin and end with word characters, for which this is exactly the
semantics of `re`'s `\b`. -/
def wordMatch : List Char → List Char → Bool
  | [], [] => true
  | [], c :: _ => !isWordChar c
  | _ :: _, [] => false
  | k :: ks, c :: t => k == c && wordMatch ks t

/-- Scans `h` for a `\b`-anchored occurrence of `kw`; `prevW` records whether
the character just before the current position is a word character. -/
def wordScan (kw : List Char) : Bool → List Char → Bool
  | prevW, [] => !prevW && wordMatch kw []
  | prevW, c :: t => (!prevW && wordMatch kw (c :: t)) || wordScan kw (isWordChar c) t

/-- `re.search(r"\b(kw)\b", hay)` for a single keyword `kw`. -/
def containsWordC (hay kw : List Char) : Bool := wordScan kw false hay

/-- `re.search` over an alternation `\b(k1|k2|...)\b` of keywords. -/
def matchesAny (hay : List Char) (kws : List String) : Bool :=
  kws.any (fun k => containsWordC hay k.data)

/-! ## Line splitting and joining (`text.split('\n')`, `'\n'.join`) -/

/-- Prepends a character to the first block of a split result. -/
def consHead (c : Char) : List (List Char) → List (List Char)
  | [] => [[c]]
  | l :: ls => (c :: l) :: ls

/-- `text.split('\n')` on character lists: blocks between newline characters,
empty blocks preserved. -/
def splitNl : List Char → List (List Char)
  | [] => [[]]
  | c :: cs => if c = '\n' then [] :: splitNl cs else consHead c (splitNl cs)

/-- `'\n'.join` on character lists. -/
def joinNl : List (List Char) → List Char
  | [] => []
  | [l] => l
  | l :: l2 :: ls => l ++ '\n' :: joinNl (l2 :: ls)

/-! ## The Response Postprocessor — `remove_duplicate_lines`
(app.py lines 31–39; the identical function appears in HACKMIT.py 45–54) -/

/-- `re.sub(r'^\d+[\.\)]\s*', '', line)`: strip one leading enumeration
marker — one or more digits, a `.` or `)`, then optional whitespace.  If the
pattern does not match at the start, the line is unchanged. -/
def stripMarker (cs : List Char) : List Char :=
  match cs.takeWhile Char.isDigit with
  | [] => cs
  | ds =>
    match cs.drop ds.length with
    | '.' :: rest => rest.dropWhile wsChar
    | ')' :: rest => rest.dropWhile wsChar
    | _ => cs

/-- The loop body of `remove_duplicate_lines`: keep the stripped form of each
line whose marker-stripped text is nonempty and not yet in `seen`. -/
def dedupLines (seen : List (List Char)) : List (List Char) → List (List Char)
  | [] => []
  | l :: ls =>
    if stripMarker (trimC l) ≠ [] ∧ stripMarker (trimC l) ∉ seen then
      trimC l :: dedupLines (stripMarker (trimC l) :: seen) ls
    else dedupLines seen ls

/-- `remove_duplicate_lines` (app.py lines 31–39). -/
def remove_duplicate_lines (text : String) : String :=
  String.mk (joinNl (dedupLines [] (splitNl text.data)))


/-! ## The canned-answer provider — `query_simple` (app.py lines 56–110) -/

/-- Canned answer for prompts mentioning "renewable energy" (app.py 59–67). -/
def renewableText : String := "Renewable energy refers to energy sources that are naturally replenished and virtually inexhaustible on human timescales. The main types include:\n\n• Solar energy - from sunlight using photovoltaic panels or solar thermal systems\n• Wind energy - from wind turbines that convert wind motion into electricity  \n• Hydroelectric power - from flowing water in rivers and dams\n• Geothermal energy - from heat stored beneath the Earth's surface\n• Biomass energy - from organic materials like wood, crops, and waste\n\nThese sources produce little to no greenhouse gas emissions compared to fossil fuels, making them crucial for combating climate change and achieving sustainable development."

/-- Canned answer for prompts mentioning "climate change" (app.py 69–78). -/
def climateText : String := "Climate change refers to long-term shifts in global temperatures and weather patterns. While climate variations occur naturally, human activities have been the main driver since the 1800s, primarily through burning fossil fuels.\n\nKey impacts include:\n• Rising global temperatures\n• More frequent extreme weather events\n• Sea level rise\n• Ocean acidification\n• Ecosystem disruption\n\nSolutions involve reducing greenhouse gas emissions through renewable energy, energy efficiency, sustainable transportation, and protecting natural carbon sinks like forests."

/-- Canned answer for prompts mentioning "sustainability" (app.py 80–86). -/
def sustainabilityText : String := "Sustainability means meeting present needs without compromising future generations' ability to meet their own needs. It has three main pillars:\n\nEnvironmental: Protecting natural resources and ecosystems\nEconomic: Supporting long-term economic growth and prosperity  \nSocial: Ensuring social equity and human well-being\n\nKey practices include using renewable energy, reducing waste, conserving water, supporting local communities, and making environmentally conscious choices in daily life."

/-- Canned answer for prompts mentioning "carbon footprint" (app.py 88–100). -/
def carbonFootprintText : String := "A carbon footprint is the total amount of greenhouse gases (primarily CO₂) emitted directly or indirectly by an individual, organization, event, or product.\n\nIt's measured in tons of CO₂ equivalent and includes:\n• Direct emissions from activities you control (driving, heating)\n• Indirect emissions from products you use (food, clothing, services)\n\nWays to reduce your carbon footprint:\n• Use renewable energy\n• Drive less, walk/bike more\n• Eat less meat, more plant-based foods\n• Reduce, reuse, recycle\n• Choose energy-efficient appliances\n• Support sustainable companies"

/-- Tail of the fallback f-string answer of `query_simple` (app.py 102–110);
the full answer is `"I understand you're asking about: " ++ prompt ++ genericTail`. -/
def genericTail : String := "\n\nThis is a simplified response. For more detailed information, I'd recommend:\n• Consulting reliable sources like scientific journals\n• Checking government environmental websites\n• Speaking with experts in the field\n• Using more advanced AI models for complex queries\n\nThe topic you're interested in is important for understanding environmental issues and sustainability."

/-- `query_simple` (app.py 56–110): substring dispatch on the lowered prompt. -/
def query_simple (prompt : String) : String :=
  let pl := lowerC prompt.data
  if containsSub pl ("renewable energy".data) then renewableText
  else if containsSub pl ("climate change".data) then climateText
  else if containsSub pl ("sustainability".data) then sustainabilityText
  else if containsSub pl ("carbon footprint".data) then carbonFootprintText
  else "I understand you're asking about: " ++ prompt ++ genericTail

/-! ## Capability gates (app.py 144–155, HACKMIT.py 94–114) -/

/-- `can_simple` (app.py 145–146): `len(prompt.split()) < 50`. -/
def can_simple (prompt : String) : Bool := countWords false prompt.data < 50

/-- `can_claude` (app.py 148–149): always `True`. -/
def can_claude (_prompt : String) : Bool := true

/-- `can_huggingface` (app.py 151–152): always `True`. -/
def can_huggingface (_prompt : String) : Bool := true

/-- `can_ollama` (app.py 154–155): always `True`. -/
def can_ollama (_prompt : String) : Bool := true

/-- The math/quantitative keyword alternation of HACKMIT.py 98 and 107. -/
def hmMathKw : List String := ["solve", "integrate", "differentiate", "derivative", "roots", "limit", "equation", "system of equations", "calculate", "find", "sum", "product", "factorial", "prime", "math", "number"]

/-- The code keyword alternation of HACKMIT.py 100 and 105. -/
def hmCodeKw : List String := ["python", "javascript", "code", "function", "script"]

/-- `can_tinyllama` (HACKMIT.py 95–102): at most 30 words and no math or code
keyword as a whole word in the lowered prompt. -/
def can_tinyllama (prompt : String) : Bool :=
  if countWords false prompt.data > 30 then false
  else if matchesAny (lowerC prompt.data) hmMathKw then false
  else if matchesAny (lowerC prompt.data) hmCodeKw then false
  else true

/-! ## The Quality Filter — `is_unhelpful_response` (app.py 158–174;
the identical function appears in HACKMIT.py 117–133) -/

/-- `re.sub(r'[^\w\s]', '', s.strip().lower())`: the punctuation-stripped,
case-folded form used by the echo test. -/
def cleanC (s : String) : List Char :=
  (lowerC (trimC s.data)).filter (fun c => isWordChar c || wsChar c)

/-- `[line.strip() for line in response.split('\n') if line.strip()]`. -/
def linesOf (response : String) : List (List Char) :=
  ((splitNl response.data).map trimC).filter (fun l => !l.isEmpty)

/-- `is_unhelpful_response` (app.py 158–174): the checks in source order —
empty/whitespace response; pure echo of the prompt; "write" and "poem" both
present; fewer than 4 words; every nonempty line contains "by"; prompt
mentions "poem" but response has neither "cat" nor "snow". -/
def is_unhelpful_response (prompt response : String) : Bool :=
  if trimC response.data = [] then true
  else if cleanC response = cleanC prompt then true
  else if containsSub (lowerC response.data) ("write".data) && containsSub (lowerC response.data) ("poem".data) then true
  else if countWords false (trimC response.data) < 4 then true
  else if !(linesOf response).isEmpty && (linesOf response).all (fun l => containsSub (lowerC l) ("by".data)) then true
  else if containsSub (lowerC prompt.data) ("poem".data) && !(containsSub (lowerC response.data) ("cat".data) || containsSub (lowerC response.data) ("snow".data)) then true
  else false

/-! ## The Carbon Estimator (app.py 177–187, HACKMIT.py 136–145) -/

/-- Floor of a rational, computed by Euclidean division of numerator by
denominator (the denominator is positive, so this is the usual floor). -/
def qFloor (x : ℚ) : ℤ := x.num.ediv (x.den : ℤ)

/-- Python's `round(x, 6)` modelled over `ℚ`: round at the sixth decimal.
Every value this program ever rounds is an exact integer multiple of 10⁻⁶
(each coefficient has at most seven decimal digits and is multiplied by 400
and an integer token count), so the choice of tie-breaking convention —
Python rounds ties to even on floats — is immaterial: rounding is the
identity on all reachable values. -/
def roundTo6 (x : ℚ) : ℚ := ((qFloor (x * 1000000 + 1 / 2) : ℤ) : ℚ) / 1000000

/-- The `energy_per_token` table of app.py 178–183 (kWh per token, exact
decimal values as rationals). -/
def app_energy_per_token (m : String) : Option ℚ :=
  if m = "simple" then some (1 / 10000000)
  else if m = "claude" then some (1 / 500000)
  else if m = "huggingface" then some (3 / 2000000)
  else if m = "ollama" then some (3 / 2500000)
  else none

/-- `get_carbon_footprint` (app.py 177–187): `energy_per_token.get(model,
0.000002) * 0.4 * 1000 * tokens_used`, rounded to 6 decimals. -/
def get_carbon_footprint (model : String) (tokens_used : Nat) : ℚ :=
  roundTo6 ((app_energy_per_token model).getD (1 / 500000) * (2 / 5) * 1000 * tokens_used)

/-- The `energy_per_token` table of HACKMIT.py 137–141. -/
def hm_energy_per_token (m : String) : Option ℚ :=
  if m = "tinyllama" then some (1 / 2000000)
  else if m = "huggingface" then some (1 / 10000000)
  else if m = "claude" then some (1 / 500000)
  else none

/-- `get_carbon_footprint` of HACKMIT.py 136–145.  That version indexes the
table directly (`energy_per_token[model]`), so a model id absent from the
table raises `KeyError`; the raised exception is modelled as `none`. -/
def hm_get_carbon_footprint (model : String) (tokens_used : Nat) : Option ℚ :=
  (hm_energy_per_token model).map (fun e => roundTo6 (e * (2 / 5) * 1000 * tokens_used))

/-! ## The Complexity Scorer — the scoring part of `suggest_optimal_model`
(app.py 190–212) -/

/-- Keyword groups and weights of app.py 195–208, in source order. -/
def scoreGroups : List (List String × Nat) :=
  [ (["explain", "analyze", "compare", "contrast", "evaluate", "critique", "discuss", "describe", "define"], 2)
  , (["algorithm", "function", "code", "programming", "technical", "scientific", "research"], 3)
  , (["write", "create", "generate", "compose", "design", "imagine", "story", "poem", "essay"], 3)
  , (["solve", "calculate", "compute", "formula", "equation", "math", "statistics", "probability"], 3)
  , (["step", "process", "how to", "tutorial", "guide", "instructions"], 2)
  , (["detailed", "comprehensive", "thorough", "in-depth", "extensive", "policy", "recommendations", "analysis"], 4)
  , (["and", "also", "additionally", "furthermore", "moreover", "plus"], 1) ]

/-- The `complexity_score` accumulated by `suggest_optimal_model`
(app.py 190–212): keyword-group weights plus the token-count step
`if token_count > 50: += 1 elif token_count > 100: += 2` — transcribed
exactly as written, `elif` included. -/
def complexity_score (prompt : String) : Nat :=
  let token_count := countWords false (trimC prompt.data)
  let low := lowerC prompt.data
  (scoreGroups.foldl (fun acc g => acc + (if matchesAny low g.1 then g.2 else 0)) 0)
  + (if token_count > 50 then 1 else if token_count > 100 then 2 else 0)

/-! ## The Cascade Orchestrator — `query_prompt` (app.py 245–294) -/

/-- The three network-backed providers, supplied as oracles: each takes the
prompt and returns the text the adapter produced (which, in the source, may
well be an error string such as `"Claude API error: ..."`). -/
structure ProviderOracles where
  claude : String → String
  huggingface : String → String
  ollama : String → String

/-- `all_models` (app.py 250). -/
def allModels : List String := ["simple", "ollama", "huggingface", "claude"]

/-- The gate-filtered order built by the non-forced path of `query_prompt`
(app.py 254–262). -/
def defaultOrder (prompt : String) : List String :=
  (if can_simple prompt then ["simple"] else [])
    ++ (if can_ollama prompt then ["ollama"] else [])
    ++ (if can_huggingface prompt then ["huggingface"] else [])
    ++ (if can_claude prompt then ["claude"] else [])

/-- `model_order` as computed by `query_prompt` (app.py 250–262): a forced,
known model short-circuits the gates; anything else falls back to the
gate-filtered order.  `none` models Python `None`; the empty string is falsy
in `if suggested_model and ...`. -/
def buildOrder (prompt : String) (suggested_model : Option String) : List String :=
  match suggested_model with
  | some s => if s ≠ "" ∧ s ∈ allModels then [s] else defaultOrder prompt
  | none => defaultOrder prompt

/-- The response the dispatch of app.py 268–276 produces for a known model
name. -/
def providerResponse (q : ProviderOracles) (prompt : String) (m : String) : String :=
  if m = "simple" then query_simple prompt
  else if m = "claude" then q.claude prompt
  else if m = "huggingface" then q.huggingface prompt
  else if m = "ollama" then q.ollama prompt
  else ""

/-- The `for model in model_order` loop of app.py 268–280.  `resp` is the
mutable `response` variable (initially `""`); a model name outside the four
known ones would leave it unchanged, exactly as the `if/elif` chain does. -/
def cascadeLoop (q : ProviderOracles) (prompt : String) (tc : Nat) :
    List String → String → String × Option String × Option ℚ
  | [], resp => (resp, none, none)
  | m :: rest, resp =>
    let r :=
      if m = "simple" then query_simple prompt
      else if m = "claude" then q.claude prompt
      else if m = "huggingface" then q.huggingface prompt
      else if m = "ollama" then q.ollama prompt
      else resp
    if is_unhelpful_response prompt r then cascadeLoop q prompt tc rest r
    else (r, some m, some (get_carbon_footprint m tc))

/-- The apology text of app.py 283. -/
def apologyText : String := "Sorry, none of the available models could generate a response."

/-- The result record of `query_prompt` (app.py 287–294).  `model_used` is
`Option String`: Python `None` is `none`, and the apology path stores the
literal string `"none"`.  `carbon_footprint_grams` is likewise `Option ℚ`. -/
structure QueryResult where
  prompt : String
  response : String
  model_used : Option String
  tokens_used : Nat
  carbon_footprint_grams : Option ℚ
  preference : String
deriving DecidableEq

/-- `query_prompt` (app.py 245–294). -/
def query_prompt (q : ProviderOracles) (prompt : String) (suggested_model : Option String) : QueryResult :=
  let tc := countWords false (trimC prompt.data)
  let out := cascadeLoop q prompt tc (buildOrder prompt suggested_model) ""
  if trimC out.1.data = [] then
    { prompt := prompt, response := apologyText, model_used := some ("none")
      tokens_used := tc, carbon_footprint_grams := some 0, preference := "auto-suggested" }
  else
    { prompt := prompt, response := out.1, model_used := out.2.1
      tokens_used := tc, carbon_footprint_grams := out.2.2, preference := "auto-suggested" }

/-- The `/api/query` endpoint guard (app.py 301–312): an empty `query`
(Python-falsy) is rejected with an error before `query_prompt` runs. -/
def api_query (q : ProviderOracles) (query : String) (suggested_model : Option String) :
    Except String QueryResult :=
  if query = "" then Except.error ("Query is required")
  else Except.ok (query_prompt q query suggested_model)

/-! ## Concrete test inputs used by the claim theorems -/

/-- Oracles whose three network providers always answer `"Yes."` — a
one-word response, rejected by the Quality Filter's under-4-words rule. -/
def qYes : ProviderOracles := ⟨fun _ => "Yes.", fun _ => "Yes.", fun _ => "Yes."⟩

/-- A prompt whose `query_simple` fallback answer embeds the words "write"
and "poem", so the Quality Filter rejects every provider's response under
`qYes`. -/
def pPoem : String := "write a poem about dogs"

/-- An adapter failure text in the exact shape produced by `query_claude`'s
`except` clause (app.py 53–54). -/
def errText : String := "Claude API error: connection timeout occurred"

/-- Oracles whose claude adapter fails, returning the error text. -/
def qErr : ProviderOracles := ⟨fun _ => errText, fun _ => "Yes.", fun _ => "Yes."⟩

/-- A 50-word prompt: rejected by `can_simple` (50 < 50 is false). -/
def promptFifty : String := String.intercalate (" ") (List.replicate 50 ("w"))

/-- A keyword-free prompt of `n` whitespace-separated words. -/
def zWords (n : Nat) : String := String.intercalate (" ") (List.replicate n ("z"))

/-- The prompt of the spec's end-to-end quantitative example. -/
def pMath : String := "What is 2+2?"

/-- The prompt used with the failing-adapter oracles. -/
def pDogs : String := "Tell me about dogs please"

/-- The gate predicate belonging to each provider id (app.py 144–155). -/
def gateOf (m : String) (p : String) : Bool :=
  if m = "simple" then can_simple p
  else if m = "claude" then can_claude p
  else if m = "huggingface" then can_huggingface p
  else if m = "ollama" then can_ollama p
  else false

/-- The value of the `response` variable after the whole non-forced cascade
has run without accepting: the last attempted provider's response, or the
initial `""` if the order were empty. -/
def finalResponse (q : ProviderOracles) (prompt : String) : String :=
  (buildOrder prompt none).foldl (fun _ m => providerResponse q prompt m) ""

/-! ## Lemmas: trimming is idempotent -/

theorem dropWhile_self {α : Type} (p : α → Bool) (l : List α) :
    (l.dropWhile p).dropWhile p = l.dropWhile p := by
  induction l with
  | nil => rfl
  | cons c t ih =>
    by_cases h : p c
    · simp [List.dropWhile_cons, h, ih]
    · simp [List.dropWhile_cons, h]

theorem dropWhile_shape {α : Type} (p : α → Bool) (l : List α) :
    l.dropWhile p = [] ∨ ∃ c t, l.dropWhile p = c :: t ∧ p c = false := by
  induction l with
  | nil => exact Or.inl rfl
  | cons c t ih =>
    by_cases h : p c
    · simpa [List.dropWhile_cons, h] using ih
    · exact Or.inr ⟨c, t, by simp [List.dropWhile_cons, h], by simpa using h⟩

theorem rtrimC_idem (l : List Char) : rtrimC (rtrimC l) = rtrimC l := by
  show ((((l.reverse.dropWhile wsChar).reverse).reverse.dropWhile wsChar)).reverse = _
  rw [List.reverse_reverse, dropWhile_self]
  rfl

theorem rtrimC_front (l : List Char) : rtrimC l <+: l := by
  have h1 : l.reverse.dropWhile wsChar <:+ l.reverse := List.dropWhile_suffix wsChar
  have h2 := List.reverse_prefix.mpr h1
  rwa [List.reverse_reverse] at h2

theorem ltrimC_rtrimC (l : List Char) : ltrimC (rtrimC (ltrimC l)) = rtrimC (ltrimC l) := by
  rcases dropWhile_shape wsChar l with h | ⟨c, t, h, hc⟩
  · have h' : ltrimC l = [] := h
    rw [h']
    rfl
  · have h' : ltrimC l = c :: t := h
    rw [h']
    rcases hpre : rtrimC (c :: t) with _ | ⟨c2, t2⟩
    · rfl
    · have hp : rtrimC (c :: t) <+: c :: t := rtrimC_front _
      rw [hpre] at hp
      rcases hp with ⟨s, hs⟩
      have hc2 : c2 = c := by
        have := hs
        simp only [List.cons_append] at this
        exact (List.cons.injEq _ _ _ _ ▸ this : _ ∧ _).1 |>.symm ▸ rfl
      subst hc2
      show (c2 :: t2).dropWhile wsChar = c2 :: t2
      simp [List.dropWhile_cons, hc]

theorem trimC_idem (l : List Char) : trimC (trimC l) = trimC l := by
  show rtrimC (ltrimC (rtrimC (ltrimC l))) = rtrimC (ltrimC l)
  rw [ltrimC_rtrimC, rtrimC_idem]

theorem trimC_mem (l : List Char) (x : Char) (h : x ∈ trimC l) : x ∈ l := by
  have h1 : x ∈ ltrimC l := (rtrimC_front (ltrimC l)).subset h
  exact (List.dropWhile_suffix wsChar).subset h1

/-! ## Lemmas: splitting inverts joining on newline-free lines -/

theorem splitNl_no_newline : ∀ (cs : List Char), ∀ l ∈ splitNl cs, '\n' ∉ l := by
  intro cs
  induction cs with
  | nil =>
    intro l hl
    simp [splitNl] at hl
    simp [hl]
  | cons c t ih =>
    intro l hl
    by_cases hc : c = '\n'
    · rw [splitNl, if_pos hc] at hl
      rcases List.mem_cons.mp hl with rfl | h
      · simp
      · exact ih l h
    · rw [splitNl, if_neg hc] at hl
      rcases hsp : splitNl t with _ | ⟨l0, ls0⟩
      · rw [hsp] at hl
        simp [consHead] at hl
        subst hl
        intro hmem
        rcases List.mem_cons.mp hmem with h1 | h1
        · exact hc h1.symm
        · simp at h1
      · rw [hsp] at hl
        simp only [consHead] at hl
        rcases List.mem_cons.mp hl with rfl | h
        · intro hmem
          rcases List.mem_cons.mp hmem with h1 | h1
          · exact hc h1.symm
          · exact ih l0 (hsp ▸ List.mem_cons_self _ _) h1
        · exact ih l (hsp ▸ List.mem_cons_of_mem _ h)

theorem splitNl_of_no_nl (l : List Char) (h : '\n' ∉ l) : splitNl l = [l] := by
  induction l with
  | nil => rfl
  | cons c t ih =>
    have hc : ¬ c = '\n' := fun hh => h (hh ▸ List.mem_cons_self _ _)
    rw [splitNl, if_neg hc, ih (fun hm => h (List.mem_cons_of_mem _ hm))]
    rfl

theorem splitNl_append_nl (l rest : List Char) (h : '\n' ∉ l) :
    splitNl (l ++ '\n' :: rest) = l :: splitNl rest := by
  induction l with
  | nil =>
    show splitNl ('\n' :: rest) = [] :: splitNl rest
    rw [splitNl, if_pos rfl]
  | cons c t ih =>
    have hc : ¬ c = '\n' := fun hh => h (hh ▸ List.mem_cons_self _ _)
    show splitNl (c :: (t ++ '\n' :: rest)) = (c :: t) :: splitNl rest
    rw [splitNl, if_neg hc, ih (fun hm => h (List.mem_cons_of_mem _ hm))]
    rfl

theorem splitNl_joinNl : ∀ (ls : List (List Char)), ls ≠ [] →
    (∀ l ∈ ls, '\n' ∉ l) → splitNl (joinNl ls) = ls := by
  intro ls
  induction ls with
  | nil => intro h; exact absurd rfl h
  | cons l tail ih =>
    intro _ hnl
    cases tail with
    | nil =>
      show splitNl (joinNl [l]) = [l]
      exact splitNl_of_no_nl l (hnl l (List.mem_cons_self _ _))
    | cons l2 ls2 =>
      show splitNl (l ++ '\n' :: joinNl (l2 :: ls2)) = l :: l2 :: ls2
      rw [splitNl_append_nl l _ (hnl l (List.mem_cons_self _ _))]
      rw [ih (by simp) (fun x hx => hnl x (List.mem_cons_of_mem _ hx))]

/-! ## Lemmas: deduplication is stable -/

theorem dedupLines_mem : ∀ (ls seen : List (List Char)) (x : List Char),
    x ∈ dedupLines seen ls → ∃ l, l ∈ ls ∧ x = trimC l := by
  intro ls
  induction ls with
  | nil => intro seen x hx; simp [dedupLines] at hx
  | cons l ls ih =>
    intro seen x hx
    by_cases h : stripMarker (trimC l) ≠ [] ∧ stripMarker (trimC l) ∉ seen
    · rw [dedupLines, if_pos h] at hx
      rcases List.mem_cons.mp hx with rfl | hx2
      · exact ⟨l, List.mem_cons_self _ _, rfl⟩
      · rcases ih _ _ hx2 with ⟨l0, hl0, hx3⟩
        exact ⟨l0, List.mem_cons_of_mem _ hl0, hx3⟩
    · rw [dedupLines, if_neg h] at hx
      rcases ih _ _ hx with ⟨l0, hl0, hx3⟩
      exact ⟨l0, List.mem_cons_of_mem _ hl0, hx3⟩

theorem dedupLines_stable : ∀ (ls seen seen2 : List (List Char)), seen2 ⊆ seen →
    dedupLines seen2 (dedupLines seen ls) = dedupLines seen ls := by
  intro ls
  induction ls with
  | nil => intro seen seen2 _; rfl
  | cons l ls ih =>
    intro seen seen2 hsub
    by_cases h : stripMarker (trimC l) ≠ [] ∧ stripMarker (trimC l) ∉ seen
    · rw [dedupLines, if_pos h, dedupLines, trimC_idem]
      rw [if_pos ⟨h.1, fun hmem => h.2 (hsub hmem)⟩]
      exact congrArg _ (ih _ _ (List.cons_subset_cons _ hsub))
    · rw [dedupLines, if_neg h]
      exact ih seen seen2 hsub

/-! ## The postprocessor is idempotent -/

theorem rdlC_idem (cs : List Char) :
    joinNl (dedupLines [] (splitNl (joinNl (dedupLines [] (splitNl cs))))) =
      joinNl (dedupLines [] (splitNl cs)) := by
  rcases h : dedupLines [] (splitNl cs) with _ | ⟨x, xs⟩
  · rfl
  · have hnl : ∀ l ∈ x :: xs, '\n' ∉ l := by
      intro l hl hmem
      have hl2 : l ∈ dedupLines [] (splitNl cs) := h ▸ hl
      rcases dedupLines_mem _ _ _ hl2 with ⟨l0, hl0, rfl⟩
      exact splitNl_no_newline cs l0 hl0 (trimC_mem l0 _ hmem)
    rw [splitNl_joinNl (x :: xs) (by simp) hnl]
    have h2 : dedupLines [] (x :: xs) = x :: xs := by
      rw [← h, dedupLines_stable (splitNl cs) [] [] (List.Subset.refl _), h]
    rw [h2]

/-! ## Lemmas: the cascade under total rejection -/

theorem buildOrder_known (p : String) : ∀ m ∈ buildOrder p none, m ∈ allModels := by
  intro m hm
  by_cases hs : can_simple p <;>
    simp [buildOrder, defaultOrder, hs, can_ollama, can_huggingface, can_claude, allModels] at hm ⊢ <;>
    tauto

theorem cascadeLoop_exhausted (q : ProviderOracles) (prompt : String) (tc : Nat) :
    ∀ (order : List String) (resp : String), (∀ m ∈ order, m ∈ allModels) →
    (∀ m ∈ order, is_unhelpful_response prompt (providerResponse q prompt m) = true) →
    cascadeLoop q prompt tc order resp =
      (order.foldl (fun _ m => providerResponse q prompt m) resp, none, none) := by
  intro order
  induction order with
  | nil => intro resp _ _; rfl
  | cons m rest ih =>
    intro resp hknown hunh
    have hm : m ∈ allModels := hknown m (List.mem_cons_self _ _)
    have hdisp :
        (if m = "simple" then query_simple prompt
         else if m = "claude" then q.claude prompt
         else if m = "huggingface" then q.huggingface prompt
         else if m = "ollama" then q.ollama prompt
         else resp) = providerResponse q prompt m := by
      simp [allModels] at hm
      rcases hm with rfl | rfl | rfl | rfl <;> rfl
    show (if is_unhelpful_response prompt
            (if m = "simple" then query_simple prompt
             else if m = "claude" then q.claude prompt
             else if m = "huggingface" then q.huggingface prompt
             else if m = "ollama" then q.ollama prompt
             else resp) = true then
            cascadeLoop q prompt tc rest
              (if m = "simple" then query_simple prompt
               else if m = "claude" then q.claude prompt
               else if m = "huggingface" then q.huggingface prompt
               else if m = "ollama" then q.ollama prompt
               else resp)
          else _) = _
    rw [hdisp, if_pos (hunh m (List.mem_cons_self _ _))]
    rw [ih _ (fun x hx => hknown x (List.mem_cons_of_mem _ hx))
          (fun x hx => hunh x (List.mem_cons_of_mem _ hx))]
    rfl

/-! ## Claim theorems -/

/-- C1 (amended): when every provider in the non-forced routing order is
attempted and judged unhelpful, `query_prompt` returns the fixed apology
with `model_used = "none"` and carbon `0` exactly when the last attempted
response is empty or whitespace-only; when the last rejected response is
non-empty, it instead returns that rejected response with `model_used`
missing (Python `None`) and no carbon figure. -/
theorem c1_exhaustion_amended (q : ProviderOracles) (prompt : String)
    (h : ∀ m ∈ buildOrder prompt none,
      is_unhelpful_response prompt (providerResponse q prompt m) = true) :
    (trimC (finalResponse q prompt).data = [] →
      (query_prompt q prompt none).response = apologyText ∧
      (query_prompt q prompt none).model_used = some ("none") ∧
      (query_prompt q prompt none).carbon_footprint_grams = some 0) ∧
    (trimC (finalResponse q prompt).data ≠ [] →
      (query_prompt q prompt none).response = finalResponse q prompt ∧
      (query_prompt q prompt none).model_used = none ∧
      (query_prompt q prompt none).carbon_footprint_grams = none) := by
  have hloop := cascadeLoop_exhausted q prompt (countWords false (trimC prompt.data))
    (buildOrder prompt none) "" (buildOrder_known prompt) h
  have hq : query_prompt q prompt none =
      (if trimC (finalResponse q prompt).data = [] then
        { prompt := prompt, response := apologyText, model_used := some ("none"),
          tokens_used := countWords false (trimC prompt.data),
          carbon_footprint_grams := some 0, preference := "auto-suggested" }
      else
        { prompt := prompt, response := finalResponse q prompt, model_used := none,
          tokens_used := countWords false (trimC prompt.data),
          carbon_footprint_grams := none, preference := "auto-suggested" } : QueryResult) := by
    show (let out := cascadeLoop q prompt (countWords false (trimC prompt.data))
            (buildOrder prompt none) ""
          if trimC out.1.data = [] then _ else _ : QueryResult) = _
    rw [hloop]
    rfl
  constructor
  · intro hfin
    rw [hq, if_pos hfin]
    exact ⟨rfl, rfl, rfl⟩
  · intro hfin
    rw [hq, if_neg hfin]
    exact ⟨rfl, rfl, rfl⟩

/-- C1 witness: with the always-"Yes." oracles and the poem prompt, every
provider in the routing order is rejected, the last response "Yes." is
non-empty, and `query_prompt` returns it with `model_used` and carbon
missing. -/
theorem c1_exhaustion_amended_witness :
    (query_prompt qYes pPoem none).response = finalResponse qYes pPoem ∧
    (query_prompt qYes pPoem none).model_used = none ∧
    (query_prompt qYes pPoem none).carbon_footprint_grams = none :=
  (c1_exhaustion_amended qYes pPoem (by decide)).2 (by decide)

/-- C1 counterexample: on `pPoem` with the `qYes` oracles every provider in
the routing order produces a response the Quality Filter rejects, yet the
result is not the apology, `model_used` is not `"none"`, and the carbon
figure is not `0` — the claim's described outcome does not occur. -/
theorem c1_claim_counterexample :
    is_unhelpful_response pPoem (providerResponse qYes pPoem "simple") = true ∧
    is_unhelpful_response pPoem (providerResponse qYes pPoem "ollama") = true ∧
    is_unhelpful_response pPoem (providerResponse qYes pPoem "huggingface") = true ∧
    is_unhelpful_response pPoem (providerResponse qYes pPoem "claude") = true ∧
    buildOrder pPoem none = allModels ∧
    (query_prompt qYes pPoem none).response ≠ apologyText ∧
    (query_prompt qYes pPoem none).model_used ≠ some ("none") ∧
    (query_prompt qYes pPoem none).carbon_footprint_grams ≠ some 0 := by
  refine ⟨by decide, by decide, by decide, by decide, by decide, by decide, by decide, by decide⟩

/-- C2 (amended): `is_unhelpful_response` contains no provider-error-marker
check, so an adapter error string of at least four words passes the Quality
Filter; with a failing claude adapter, `query_prompt` returns the error
string as the accepted response with `model_used = "claude"`. -/
theorem c2_error_accepted :
    containsSub (lowerC errText.data) ("error".data) = true ∧
    (query_prompt qErr pDogs (some ("claude"))).model_used = some ("claude") ∧
    (query_prompt qErr pDogs (some ("claude"))).response = errText := by
  refine ⟨by decide, by decide, by decide⟩

/-- C2 counterexample: the adapter failure text — in the exact shape
produced by `query_claude`'s exception handler — is not rejected by the
Quality Filter. -/
theorem c2_claim_counterexample : is_unhelpful_response pDogs errText = false := by decide

/-- C3 (amended): in app.py, `get_carbon_footprint` equals the documented
rounded formula, and for ids absent from the coefficient table the default
coefficient `0.000002` is substituted without error; the HACKMIT.py version
instead indexes its table directly, so an absent id (such as `"simple"`)
raises `KeyError` (modelled as `none`). -/
theorem c3_carbon_amended :
    (∀ (m : String) (t : Nat), get_carbon_footprint m t =
      roundTo6 ((app_energy_per_token m).getD (1 / 500000) * (2 / 5) * 1000 * t)) ∧
    (∀ (m : String) (t : Nat), app_energy_per_token m = none →
      get_carbon_footprint m t = roundTo6 ((1 / 500000 : ℚ) * (2 / 5) * 1000 * t)) ∧
    (∀ t : Nat, hm_get_carbon_footprint "simple" t = none) := by
  refine ⟨fun _ _ => rfl, fun m t h => ?_, fun _ => rfl⟩
  unfold get_carbon_footprint
  rw [h]
  rfl

/-- C3 witness: `"gpt4"` is absent from the app.py table and the default
coefficient is used. -/
theorem c3_carbon_amended_witness :
    app_energy_per_token "gpt4" = none ∧
    get_carbon_footprint "gpt4" 7 = roundTo6 ((1 / 500000 : ℚ) * (2 / 5) * 1000 * 7) :=
  ⟨rfl, c3_carbon_amended.2.1 "gpt4" 7 rfl⟩

/-- C3 counterexample: the HACKMIT.py `get_carbon_footprint` has no default:
`"simple"` is absent from its coefficient table and the call fails
(`KeyError`, modelled as `none`) instead of using a fallback coefficient. -/
theorem c3_claim_counterexample :
    hm_energy_per_token "simple" = none ∧ hm_get_carbon_footprint "simple" 10 = none :=
  ⟨rfl, rfl⟩

/-- C4: for every prompt, the non-forced routing order is non-empty, always
contains `"claude"`, has no duplicates, and contains no provider whose gate
rejects the prompt. -/
theorem c4_routing_order (p : String) :
    buildOrder p none ≠ [] ∧ "claude" ∈ buildOrder p none ∧
    (buildOrder p none).Nodup ∧
    (buildOrder p none).all (fun m => gateOf m p) = true := by
  by_cases hs : can_simple p
  · have horder : buildOrder p none = ["simple", "ollama", "huggingface", "claude"] := by
      simp [buildOrder, defaultOrder, hs, can_ollama, can_huggingface, can_claude]
    rw [horder]
    refine ⟨by simp, by simp, by decide, ?_⟩
    simp [gateOf, can_ollama, can_huggingface, can_claude, hs]
  · have horder : buildOrder p none = ["ollama", "huggingface", "claude"] := by
      simp [buildOrder, defaultOrder, hs, can_ollama, can_huggingface, can_claude]
    rw [horder]
    refine ⟨by simp, by simp, by decide, ?_⟩
    simp [gateOf, can_ollama, can_huggingface, can_claude]

/-- C5: the token-count step of the Complexity Scorer is written
`if token_count > 50: += 1 elif token_count > 100: += 2`, so the `+= 2`
branch is unreachable: a keyword-free 101-word prompt scores the same `1`
as a 51-word prompt (and a 50-word prompt scores `0`) — no larger bonus is
ever applied past the second threshold. -/
theorem c5_token_bonus_shadowed :
    complexity_score (zWords 101) = 1 ∧ complexity_score (zWords 51) = 1 ∧
    complexity_score (zWords 50) = 0 := by
  refine ⟨by decide, by decide, by decide⟩

/-- C6 (amended): neither lowest-tier gate rejects `"What is 2+2?"` —
app.py's `can_simple` checks only the word count and HACKMIT.py's
`can_tinyllama` finds none of its math keywords in the prompt — so the
non-forced order starts with `"simple"` and `query_prompt` answers with
`model_used = "simple"`, the lowest tier's id. -/
theorem c6_amended :
    defaultOrder pMath = allModels ∧
    matchesAny (lowerC pMath.data) hmMathKw = false ∧
    (query_prompt qYes pMath none).model_used = some ("simple") ∧
    (query_prompt qYes pMath none).response = query_simple pMath := by
  refine ⟨by decide, by decide, by decide, by decide⟩

/-- C6 counterexample: both lowest-tier gates accept `"What is 2+2?"` and
the routed result's `model_used` equals the lowest tier's id, contradicting
the claim's required rejection and non-lowest-tier routing. -/
theorem c6_claim_counterexample :
    can_simple pMath = true ∧ can_tinyllama pMath = true ∧
    (query_prompt qYes pMath none).model_used = some ("simple") := by
  refine ⟨by decide, by decide, by decide⟩

/-- C7 (amended): the empty-input rejection lives in the HTTP endpoint
`api_query`, which returns an error for an empty query without calling
`query_prompt` and passes every non-empty query through; `query_prompt`
itself, applied directly to the empty string, routes it and accepts the
canned provider's answer. -/
theorem c7_amended :
    api_query qYes "" none = Except.error ("Query is required") ∧
    (∀ (q : ProviderOracles) (s : String) (sm : Option String), s ≠ "" →
      api_query q s sm = Except.ok (query_prompt q s sm)) ∧
    (query_prompt qYes "" none).model_used = some ("simple") := by
  refine ⟨rfl, fun q s sm h => ?_, by decide⟩
  unfold api_query
  rw [if_neg h]

/-- C7 witness: a non-empty query is passed through to `query_prompt`. -/
theorem c7_amended_witness :
    api_query qYes "hi" none = Except.ok (query_prompt qYes "hi" none) :=
  c7_amended.2.1 qYes "hi" none (by decide)

/-- C7 counterexample: called directly on the empty prompt, `query_prompt`
does invoke a provider and returns a routed result with a provider id, not
an `EmptyInput` rejection. -/
theorem c7_claim_counterexample :
    (query_prompt qYes "" none).model_used = some ("simple") ∧
    (query_prompt qYes "" none).response = query_simple "" := by
  refine ⟨by decide, by decide⟩

/-- C8: the Response Postprocessor is idempotent on every input, and on
`"1. Sun\n2. Sun\nMoon"` it yields `"1. Sun\nMoon"` (first occurrence kept
with its enumeration marker, first-seen order preserved), which reapplying
leaves unchanged. -/
theorem c8_postprocessor_idem :
    (∀ t : String, remove_duplicate_lines (remove_duplicate_lines t) = remove_duplicate_lines t) ∧
    remove_duplicate_lines "1. Sun\n2. Sun\nMoon" = "1. Sun\nMoon" ∧
    remove_duplicate_lines "1. Sun\nMoon" = "1. Sun\nMoon" :=
  ⟨fun t => congrArg String.mk (rdlC_idem t.data), by decide, by decide⟩

/-- C9: any response that, after punctuation-stripping and case-folding,
equals the prompt (a pure echo) is rejected by the Quality Filter. -/
theorem c9_echo_rejected (prompt response : String)
    (h : cleanC response = cleanC prompt) :
    is_unhelpful_response prompt response = true := by
  unfold is_unhelpful_response
  by_cases h1 : trimC response.data = []
  · rw [if_pos h1]
  · rw [if_neg h1, if_pos h]

/-- C9 witness: prompt `"Hello world!"` with response `"hello world"` is an
echo and is rejected. -/
theorem c9_echo_rejected_witness :
    cleanC "hello world" = cleanC "Hello world!" ∧
    is_unhelpful_response "Hello world!" "hello world" = true :=
  ⟨by decide, c9_echo_rejected "Hello world!" "hello world" (by decide)⟩

/-- C10: forcing a known provider id makes the routing order exactly that
single provider, bypassing its gate: forcing `"simple"` on a 50-word prompt
(which `can_simple` rejects) still attempts — and here accepts — the simple
provider. -/
theorem c10_forced_provider :
    (∀ (p s : String), s ∈ allModels → buildOrder p (some s) = [s]) ∧
    can_simple promptFifty = false ∧
    (query_prompt qYes promptFifty (some ("simple"))).model_used = some ("simple") := by
  refine ⟨fun p s hs => ?_, by decide, by decide⟩
  have hne : s ≠ "" := by
    simp [allModels] at hs
    rcases hs with rfl | rfl | rfl | rfl <;> decide
  show (if s ≠ "" ∧ s ∈ allModels then [s] else defaultOrder p) = [s]
  rw [if_pos ⟨hne, hs⟩]

/-- C10 witness: forcing `"ollama"` yields the singleton order. -/
theorem c10_forced_provider_witness :
    buildOrder "hello" (some ("ollama")) = ["ollama"] :=
  c10_forced_provider.1 "hello" "ollama" (by decide)
